import Mathlib

/-!
Shallow embedding of `sysapp/core/sysrequests.py`, a thin query facade over
the `psutil` system-metrics provider.  Every facade function in the source is
a single expression forwarding to one (or, for `available_ram_percent`, two)
provider calls.  The provider — the host OS as seen through `psutil` — is
modelled as a `Provider` record.  Provider calls whose results may differ
between successive invocations (`psutil.virtual_memory`, `psutil.cpu_count`)
are modelled as streams indexed by a per-function call counter, which the
corresponding facade functions thread explicitly and advance by one per call.
Python numbers are modelled exactly: `int` as `Nat` (all byte/count fields
are nonnegative), `float` results of true division as `ℚ`.  Python
exceptions raised by a call are modelled with `Except PyError`.
-/

/-- Host platform, as far as `psutil.cpu_stats` distinguishes it: the wrapper
docstring records that the `syscalls` field is always set to 0 on Linux. -/
inductive Platform where
  | linux : Platform
  | other : Platform
deriving DecidableEq

/-- Python exceptions that the modelled provider calls can raise. -/
inductive PyError where
  | zeroDivisionError : PyError
  | fileNotFoundError : String → PyError
deriving DecidableEq

/-- Python `/` on nonnegative operands: true division, raising
`ZeroDivisionError` when the divisor is zero. -/
def pyDiv (a b : ℚ) : Except PyError ℚ :=
  if b = 0 then Except.error PyError.zeroDivisionError else Except.ok (a / b)

/-- A Python runtime value, as far as the facade's return shapes need to be
distinguished: a bare number, a positional tuple of numbers, a `namedtuple`
(field-name/value pairs, in field order), a `dict` (key/value pairs), or
`None`.  All record fields in this facade are numeric. -/
inductive PyVal where
  | num : ℚ → PyVal
  | tup : List ℚ → PyVal
  | named : List (String × ℚ) → PyVal
  | dict : List (String × ℚ) → PyVal
  | pynone : PyVal
deriving DecidableEq

/-- Whether a `PyVal` is a namedtuple (a record with named fields). -/
def PyVal.is_named : PyVal → Bool
  | PyVal.named _ => true
  | _ => false

/-- Whether a `PyVal` is a dict. -/
def PyVal.is_dict : PyVal → Bool
  | PyVal.dict _ => true
  | _ => false

/-- The `psutil.cpu_stats()` namedtuple: context switches, interrupts,
software interrupts and syscalls since boot (all counters). -/
structure CpuStatsRaw where
  ctx_switches : Nat
  interrupts : Nat
  soft_interrupts : Nat
  syscalls : Nat
deriving DecidableEq

/-- The `psutil.cpu_freq()` namedtuple: current, min and max frequency. -/
structure CpuFreq where
  current : ℚ
  min : ℚ
  max : ℚ
deriving DecidableEq

/-- The `psutil.virtual_memory()` namedtuple, restricted to the fields
guaranteed on every platform (total, available, percent, used, free).
Byte fields are `Nat`; `percent` is a float. -/
structure VirtMem where
  total : Nat
  available : Nat
  percent : ℚ
  used : Nat
  free : Nat
deriving DecidableEq

/-- The `psutil.swap_memory()` namedtuple. -/
structure SwapMem where
  total : Nat
  used : Nat
  free : Nat
  percent : ℚ
  sin : Nat
  sout : Nat
deriving DecidableEq

/-- The `psutil.disk_usage(path)` namedtuple. -/
structure DiskUsage where
  total : Nat
  used : Nat
  free : Nat
  percent : ℚ
deriving DecidableEq

/-- One `psutil.disk_partitions()` entry. -/
structure PartitionRec where
  device : String
  mountpoint : String
  fstype : String
  opts : String
deriving DecidableEq

/-- One per-disk `psutil.disk_io_counters` namedtuple. -/
structure IoCounters where
  read_count : Nat
  write_count : Nat
  read_bytes : Nat
  write_bytes : Nat
  read_time : Nat
  write_time : Nat
deriving DecidableEq

/-- The provider: the host OS as observed through `psutil`.  Calls whose
successive results may differ within a process run (`virtual_memory`,
`cpu_count`) are streams over a per-function call counter `k`: the stream
value at `k` is what the `k`-th call to that `psutil` function returns.
All other counters are modelled time-invariant, as no claim concerns their
variation.  `fs_paths` is the set of paths that exist on the host filesystem;
`usage_of` gives the usage of the partition holding an existing path;
`disks` are the mounted disks the kernel reports I/O statistics for. -/
structure Provider where
  platform : Platform
  cpu_count : Nat → Nat
  cpu_count_physical : Option Nat
  cpu_stats_raw : CpuStatsRaw
  cpu_freq_all : CpuFreq
  cpu_freq_per : List CpuFreq
  cpu_percent_val : ℚ
  loadavg : ℚ × ℚ × ℚ
  vm : Nat → VirtMem
  swap : SwapMem
  partitions : List PartitionRec
  fs_paths : List String
  usage_of : String → DiskUsage
  disks : List String
  io_of : String → IoCounters
  temps : List (String × List ℚ)

/- ## The psutil provider calls, as the facade observes them -/

/-- `psutil.cpu_count()`: the `c`-th call returns the logical CPU count the
OS reports at that moment; the call counter advances. -/
def psutil_cpu_count (p : Provider) (c : Nat) : Nat × Nat :=
  (p.cpu_count c, c + 1)

/-- `psutil.cpu_stats()`: on Linux the `syscalls` field is always set to 0
(the platform does not expose the counter; both the psutil documentation and
the wrapper's own docstring record this); elsewhere the raw value is
returned. -/
def psutil_cpu_stats (p : Provider) : CpuStatsRaw :=
  match p.platform with
  | Platform.linux => { p.cpu_stats_raw with syscalls := 0 }
  | Platform.other => p.cpu_stats_raw

/-- `psutil.getloadavg()`: a plain positional 3-tuple holding the average
system load over the last 1, 5 and 15 minutes, in that order. -/
def psutil_getloadavg (p : Provider) : PyVal :=
  PyVal.tup [p.loadavg.1, p.loadavg.2.1, p.loadavg.2.2]

/-- `psutil.virtual_memory()`: the `k`-th call returns the memory snapshot
the OS reports at that moment; the call counter advances. -/
def psutil_virtual_memory (p : Provider) (k : Nat) : VirtMem × Nat :=
  (p.vm k, k + 1)

/-- `psutil.disk_usage(path)`: raises `FileNotFoundError` (an `OSError`)
when `path` does not exist on the host filesystem, and otherwise returns the
usage of the partition holding `path` (provider contract, per the psutil
documentation). -/
def psutil_disk_usage (p : Provider) (path : String) : Except PyError DiskUsage :=
  if path ∈ p.fs_paths then Except.ok (p.usage_of path)
  else Except.error (PyError.fileNotFoundError path)

/-- `psutil.disk_io_counters(perdisk=True)`: a dict with one entry per
mounted disk the kernel reports, keyed by disk name.  Python dict
construction keeps one entry per distinct key, modelled by `List.dedup`. -/
def psutil_disk_io_counters_perdisk (p : Provider) : List (String × IoCounters) :=
  (p.disks.dedup).map (fun d => (d, p.io_of d))

/-- `psutil.sensors_temperatures(fahrenheit=False)`: per-sensor-group lists
of readings, in Celsius. -/
def psutil_sensors_temperatures (p : Provider) : List (String × List ℚ) :=
  p.temps

/- ## The facade of sysrequests.py, one definition per source function -/

/-- `count_cpus()` = `psutil.cpu_count()` (source line 29). -/
def count_cpus (p : Provider) (c : Nat) : Nat × Nat :=
  psutil_cpu_count p c

/-- `count_cpus_nonlogical()` = `psutil.cpu_count(logical=False)`
(source line 34); psutil may return `None` here. -/
def count_cpus_nonlogical (p : Provider) : Option Nat :=
  p.cpu_count_physical

/-- `cpu_stats()` = `psutil.cpu_stats()` (source line 49): the namedtuple is
returned unchanged, with no error path. -/
def cpu_stats (p : Provider) : CpuStatsRaw :=
  psutil_cpu_stats p

/-- `cpu_frequency_all()` = `psutil.cpu_freq(percpu=False)` (source line 56). -/
def cpu_frequency_all (p : Provider) : CpuFreq :=
  p.cpu_freq_all

/-- `cpu_frequency_each()` = `psutil.cpu_freq(percpu=True)` (source line 63). -/
def cpu_frequency_each (p : Provider) : List CpuFreq :=
  p.cpu_freq_per

/-- `cpu_percent()` = `psutil.cpu_percent()` (source line 71). -/
def cpu_percent (p : Provider) : ℚ :=
  p.cpu_percent_val

/-- `average_sysload()` = `psutil.getloadavg()` (source line 80): the plain
tuple is returned unchanged (the annotation is `-> tuple`). -/
def average_sysload (p : Provider) : PyVal :=
  psutil_getloadavg p

/-- `virtual_memory()` = `psutil.virtual_memory()` (source line 90): one
provider call, namedtuple returned unchanged. -/
def virtual_memory (p : Provider) (k : Nat) : VirtMem × Nat :=
  psutil_virtual_memory p k

/-- The field-name/value pairs of a `psutil.virtual_memory()` record, in
field order: what `._asdict()` yields on it. -/
def vmFields (m : VirtMem) : List (String × ℚ) :=
  [("total", (m.total : ℚ)), ("available", (m.available : ℚ)),
   ("percent", m.percent), ("used", (m.used : ℚ)), ("free", (m.free : ℚ))]

/-- `virtual_memory_dict()` = `psutil.virtual_memory()._asdict()`
(source line 98): one provider call, record reshaped into a dict. -/
def virtual_memory_dict (p : Provider) (k : Nat) : List (String × ℚ) × Nat :=
  let r := psutil_virtual_memory p k
  (vmFields r.1, r.2)

/-- `used_ram_percent()` = `psutil.virtual_memory().percent`
(source line 103). -/
def used_ram_percent (p : Provider) (k : Nat) : ℚ × Nat :=
  let r := psutil_virtual_memory p k
  (r.1.percent, r.2)

/-- `available_ram_percent()` (source lines 108–111): two separate
`psutil.virtual_memory()` calls — `available` is taken from the first,
`total` from the second — then Python true division
`(available * 100) / total`, which raises `ZeroDivisionError` when
`total == 0`. -/
def available_ram_percent (p : Provider) (k : Nat) : Except PyError ℚ × Nat :=
  let r1 := psutil_virtual_memory p k
  let available := r1.1.available
  let r2 := psutil_virtual_memory p r1.2
  let total := r2.1.total
  (pyDiv ((available : ℚ) * 100) (total : ℚ), r2.2)

/-- `swap_memory()` = `psutil.swap_memory()` (source line 119). -/
def swap_memory (p : Provider) : SwapMem :=
  p.swap

/-- `disk_partitions()` = `psutil.disk_partitions()` (source line 129). -/
def disk_partitions (p : Provider) : List PartitionRec :=
  p.partitions

/-- The default value of the `path` parameter of `disk_usage`
(source line 131: `path: str = '/'`). -/
def disk_usage_default_path : String := "/"

/-- `disk_usage(path)` = `psutil.disk_usage(path)` (source line 137): the
provider call's result or exception is passed through unchanged. -/
def disk_usage (p : Provider) (path : String) : Except PyError DiskUsage :=
  psutil_disk_usage p path

/-- `io_statistics()` = `psutil.disk_io_counters(perdisk=True)`
(source line 149). -/
def io_statistics (p : Provider) : List (String × IoCounters) :=
  psutil_disk_io_counters_perdisk p

/-- `sensors_temp()` = `psutil.sensors_temperatures(fahrenheit=False)`
(source line 163). -/
def sensors_temp (p : Provider) : List (String × List ℚ) :=
  psutil_sensors_temperatures p

/-- `sensors_fans()` (source lines 165–168): the body is the bare expression
`...` (Ellipsis), so the call returns `None` regardless of the provider —
despite the `-> PSdict` annotation. -/
def sensors_fans (_p : Provider) : PyVal :=
  PyVal.pynone

/- ## Concrete providers used to evaluate the facade -/

/-- A stable memory snapshot: 1000 bytes total, 400 available. -/
def vmA : VirtMem :=
  { total := 1000, available := 400, percent := 60, used := 500, free := 100 }

/-- A snapshot with much available memory, seen by a first read. -/
def vmHigh : VirtMem :=
  { total := 1000, available := 200, percent := 80, used := 800, free := 0 }

/-- A snapshot after most memory went away, seen by a second read. -/
def vmLow : VirtMem :=
  { total := 100, available := 10, percent := 90, used := 90, free := 0 }

/-- A degenerate snapshot reporting zero total memory. -/
def vmZero : VirtMem :=
  { total := 0, available := 0, percent := 0, used := 0, free := 0 }

/-- A fixed frequency record. -/
def freqA : CpuFreq := { current := 2400, min := 800, max := 3600 }

/-- A fixed usage record for the root partition. -/
def duA : DiskUsage := { total := 5000, used := 2000, free := 3000, percent := 40 }

/-- Fixed per-disk I/O counters. -/
def ioA : IoCounters :=
  { read_count := 1, write_count := 2, read_bytes := 3, write_bytes := 4,
    read_time := 5, write_time := 6 }

/-- A fixed swap record. -/
def swapA : SwapMem :=
  { total := 800, used := 100, free := 700, percent := 12, sin := 0, sout := 0 }

/-- A concrete Linux host whose streams are constant: 8 logical CPUs, the
`vmA` memory snapshot on every read, one root path, two mounted disks. -/
def testProvider : Provider :=
  { platform := Platform.linux
    cpu_count := fun _ => 8
    cpu_count_physical := some 4
    cpu_stats_raw := { ctx_switches := 100, interrupts := 200,
                       soft_interrupts := 300, syscalls := 400 }
    cpu_freq_all := freqA
    cpu_freq_per := [freqA, freqA]
    cpu_percent_val := 12
    loadavg := (1, 2, 3)
    vm := fun _ => vmA
    swap := swapA
    partitions := []
    fs_paths := ["/"]
    usage_of := fun _ => duA
    disks := ["sda", "sdb"]
    io_of := fun _ => ioA
    temps := [] }

/-- A host whose memory state changes between two successive reads: the
first read sees `vmHigh` (available = 200), every later read sees `vmLow`
(total = 100). -/
def flipProvider : Provider :=
  { testProvider with vm := fun k => if k = 0 then vmHigh else vmLow }

/-- A host reporting zero total memory on every read. -/
def zeroProvider : Provider :=
  { testProvider with vm := fun _ => vmZero }

/- ## Theorems -/

/-- C1 counterexample: the claim "the result lies in [0,100] whenever total
memory > 0" is false as stated.  On `flipProvider` the memory state changes
between the two reads of `available_ram_percent`: both reads report a
strictly positive total, yet the result is 200, outside [0,100]. -/
theorem available_ram_percent_range_counterexample :
    0 < (flipProvider.vm 0).total ∧ 0 < (flipProvider.vm 1).total ∧
    (available_ram_percent flipProvider 0).1 = Except.ok 200 ∧ ¬ ((200 : ℚ) ≤ 100) := by
  refine ⟨by decide, by decide, ?_, by norm_num⟩
  norm_num [available_ram_percent, psutil_virtual_memory, flipProvider, testProvider,
    vmHigh, vmLow, pyDiv]

/-- C1 (corrected): `available_ram_percent` computes `available * 100 / total`
from two successive virtual-memory reads.  When the two reads return the same
record, `available ≤ total`, and `total > 0`, the result is a value in
[0,100].  When the total of the second read is 0, the call raises
`ZeroDivisionError` — it does not return a typed `Undefined` error (no such
error exists in the code). -/
theorem available_ram_percent_amended (p : Provider) (k : Nat) :
    (p.vm (k + 1) = p.vm k → (p.vm k).available ≤ (p.vm k).total →
      0 < (p.vm k).total →
      ∃ q : ℚ, (available_ram_percent p k).1 = Except.ok q ∧ 0 ≤ q ∧ q ≤ 100) ∧
    ((p.vm (k + 1)).total = 0 →
      (available_ram_percent p k).1 = Except.error PyError.zeroDivisionError) := by
  constructor
  · intro hsame hle hpos
    have ht : (((p.vm k).total : ℚ)) ≠ 0 := Nat.cast_ne_zero.mpr hpos.ne'
    have htpos : (0 : ℚ) < ((p.vm k).total : ℚ) := by exact_mod_cast hpos
    refine ⟨(((p.vm k).available : ℚ) * 100) / ((p.vm k).total : ℚ), ?_, ?_, ?_⟩
    · simp [available_ram_percent, psutil_virtual_memory, hsame, pyDiv, ht]
    · positivity
    · rw [div_le_iff₀ htpos]
      have hle' : ((p.vm k).available : ℚ) ≤ ((p.vm k).total : ℚ) := Nat.cast_le.mpr hle
      nlinarith
  · intro h0
    simp [available_ram_percent, psutil_virtual_memory, pyDiv, h0]

/-- C1 witness: on the stable provider the result is some value in [0,100];
on the zero-total provider the call raises `ZeroDivisionError`. -/
theorem available_ram_percent_amended_witness :
    (∃ q : ℚ, (available_ram_percent testProvider 0).1 = Except.ok q ∧
      0 ≤ q ∧ q ≤ 100) ∧
    (available_ram_percent zeroProvider 0).1 =
      Except.error PyError.zeroDivisionError :=
  ⟨(available_ram_percent_amended testProvider 0).1 rfl (by decide) (by decide),
   (available_ram_percent_amended zeroProvider 0).2 rfl⟩

/-- C2 (code_bug): on Linux, `cpu_stats()` returns the provider record with
`syscalls` silently set to 0 — the function's return type has no error
alternative, so no `Unsupported` signal is possible; the wrapper's own
docstring records the always-0 value and the spec treats this as a defect. -/
theorem cpu_stats_linux_syscalls_zero (p : Provider)
    (h : p.platform = Platform.linux) :
    cpu_stats p = { p.cpu_stats_raw with syscalls := 0 } ∧
    (cpu_stats p).syscalls = 0 := by
  simp [cpu_stats, psutil_cpu_stats, h]

/-- C2 witness: the concrete Linux host reports its raw counters with
`syscalls` replaced by 0. -/
theorem cpu_stats_linux_syscalls_zero_witness :
    cpu_stats testProvider = { testProvider.cpu_stats_raw with syscalls := 0 } ∧
    (cpu_stats testProvider).syscalls = 0 :=
  cpu_stats_linux_syscalls_zero testProvider rfl

/-- C3 (code_bug): `sensors_fans()` returns `None` for every provider — its
body is a bare `...` stub — so the call yields neither a namedtuple record
nor a dict nor a raised error, contradicting its own `-> PSdict` annotation
and the facade contract. -/
theorem sensors_fans_returns_none (p : Provider) :
    sensors_fans p = PyVal.pynone ∧ (sensors_fans p).is_named = false ∧
    (sensors_fans p).is_dict = false :=
  ⟨rfl, rfl, rfl⟩

/-- C4 counterexample: on the concrete provider the load-average query
returns a positional tuple and not a namedtuple with named fields. -/
theorem average_sysload_named_fields_counterexample :
    average_sysload testProvider = PyVal.tup [1, 2, 3] ∧
    (average_sysload testProvider).is_named = false :=
  ⟨rfl, rfl⟩

/-- C4 (corrected): `average_sysload()` returns the 1-, 5- and 15-minute
averages as a plain positional 3-tuple, in that order — not as three named
fields (the source forwards `psutil.getloadavg()` unchanged and its
annotation is `-> tuple`). -/
theorem average_sysload_positional_tuple (p : Provider) :
    average_sysload p = PyVal.tup [p.loadavg.1, p.loadavg.2.1, p.loadavg.2.2] ∧
    (average_sysload p).is_named = false :=
  ⟨rfl, rfl⟩

/-- C5 (confirmed): for every path that does not exist on the host
filesystem, `disk_usage` fails with the provider's typed
`FileNotFoundError` for that path — the code's realization of the spec's
`InvalidArgument` error kind — rather than returning a record or failing in
an unspecified way. -/
theorem disk_usage_nonexistent_path_typed_error (p : Provider) (path : String)
    (h : path ∉ p.fs_paths) :
    disk_usage p path = Except.error (PyError.fileNotFoundError path) := by
  simp [disk_usage, psutil_disk_usage, h]

/-- C5 witness: querying the concrete host for the nonexistent path "nope"
yields the typed error carrying that path. -/
theorem disk_usage_nonexistent_path_typed_error_witness :
    disk_usage testProvider "nope" =
      Except.error (PyError.fileNotFoundError "nope") :=
  disk_usage_nonexistent_path_typed_error testProvider "nope" (by decide)

/-- C6 (confirmed): when the provider's CPU count does not change during the
process run (no hot-plug), any two `count_cpus` calls — at any points in the
call history — return the same value; the result depends only on the
provider, and the call's sole effect on threaded state is advancing its own
call counter by one (the facade keeps no state of its own). -/
theorem count_cpus_idempotent (p : Provider)
    (h : ∀ i, p.cpu_count i = p.cpu_count 0) (c c' : Nat) :
    (count_cpus p c).1 = (count_cpus p c').1 ∧
    (count_cpus p c).1 = p.cpu_count 0 ∧
    (count_cpus p c).2 = c + 1 := by
  simp [count_cpus, psutil_cpu_count, h c, h c']

/-- C6 witness: on the concrete host (constant CPU count 8) the first and
sixth calls agree. -/
theorem count_cpus_idempotent_witness :
    (count_cpus testProvider 0).1 = (count_cpus testProvider 5).1 ∧
    (count_cpus testProvider 0).1 = testProvider.cpu_count 0 ∧
    (count_cpus testProvider 0).2 = 0 + 1 :=
  count_cpus_idempotent testProvider (fun _ => rfl) 0 5

/-- C7 (confirmed): the per-disk I/O mapping has unique keys, its keys are
exactly the distinct disks the provider reports, and when the provider's
disk list has no duplicates there is exactly one entry per mounted disk. -/
theorem io_statistics_unique_keys (p : Provider) :
    ((io_statistics p).map Prod.fst).Nodup ∧
    (io_statistics p).map Prod.fst = p.disks.dedup ∧
    (p.disks.Nodup → (io_statistics p).map Prod.fst = p.disks) := by
  have hpair : ∀ l : List String,
      (l.map (fun d => (d, p.io_of d))).map Prod.fst = l := by
    intro l
    induction l with
    | nil => rfl
    | cons a t ih => simp [ih]
  have hkeys : (io_statistics p).map Prod.fst = p.disks.dedup :=
    hpair p.disks.dedup
  refine ⟨?_, hkeys, fun h => hkeys.trans (List.dedup_eq_self.mpr h)⟩
  rw [hkeys]
  exact p.disks.nodup_dedup

/-- C7 witness: on the concrete host with disks ["sda", "sdb"], the mapping
keys are exactly those two disks, without duplicates. -/
theorem io_statistics_unique_keys_witness :
    ((io_statistics testProvider).map Prod.fst).Nodup ∧
    (io_statistics testProvider).map Prod.fst = testProvider.disks :=
  ⟨(io_statistics_unique_keys testProvider).1,
   (io_statistics_unique_keys testProvider).2.2 (by decide)⟩

/-- C8 (confirmed): at the same provider state, `virtual_memory_dict()`
returns exactly the field-name-to-value mapping of the record
`virtual_memory()` returns, advances the call counter identically, and its
keys are the record's field names in field order. -/
theorem virtual_memory_dict_matches_record (p : Provider) (k : Nat) :
    (virtual_memory_dict p k).1 = vmFields (virtual_memory p k).1 ∧
    (virtual_memory_dict p k).2 = (virtual_memory p k).2 ∧
    (virtual_memory_dict p k).1.map Prod.fst =
      ["total", "available", "percent", "used", "free"] := by
  simp [virtual_memory_dict, virtual_memory, psutil_virtual_memory, vmFields]

/-- C9 (confirmed): the default value of `disk_usage`'s path parameter is
"/", and calling with that default on a host where "/" exists returns the
usage of the partition holding the root path. -/
theorem disk_usage_default_is_root (p : Provider) (h : "/" ∈ p.fs_paths) :
    disk_usage_default_path = "/" ∧
    disk_usage p disk_usage_default_path = Except.ok (p.usage_of "/") := by
  refine ⟨rfl, ?_⟩
  simp [disk_usage, psutil_disk_usage, disk_usage_default_path, h]

/-- C9 witness: on the concrete host, the default-path query returns the root
partition's usage record. -/
theorem disk_usage_default_is_root_witness :
    disk_usage_default_path = "/" ∧
    disk_usage testProvider disk_usage_default_path =
      Except.ok (testProvider.usage_of "/") :=
  disk_usage_default_is_root testProvider (by decide)

/-- C10 (confirmed): `available_ram_percent` takes `available` from a first
virtual-memory read and `total` from a second; when both reads return the
same record the result is `available * 100 / total` of that single snapshot;
and when the state changes between the reads the result can leave [0,100]
even with a positive total (witnessed by `flipProvider`, where it is 200). -/
theorem available_ram_percent_two_reads (p : Provider) (k : Nat) :
    (available_ram_percent p k).1 =
      pyDiv (((p.vm k).available : ℚ) * 100) (((p.vm (k + 1)).total : ℚ)) ∧
    (p.vm (k + 1) = p.vm k →
      (available_ram_percent p k).1 =
        pyDiv (((p.vm k).available : ℚ) * 100) (((p.vm k).total : ℚ))) ∧
    (∃ pc : Provider, ∃ kc : Nat, 0 < (pc.vm (kc + 1)).total ∧
      (available_ram_percent pc kc).1 = Except.ok 200 ∧ ¬ ((200 : ℚ) ≤ 100)) := by
  refine ⟨rfl, ?_, ⟨flipProvider, 0, by decide, ?_, by norm_num⟩⟩
  · intro h
    have h1 : (available_ram_percent p k).1 =
        pyDiv (((p.vm k).available : ℚ) * 100) (((p.vm (k + 1)).total : ℚ)) := rfl
    rw [h1, h]
  · norm_num [available_ram_percent, psutil_virtual_memory, flipProvider,
      testProvider, vmHigh, vmLow, pyDiv]

/-- C10 witness: on the stable provider, the two-read formula holds and,
since both reads agree, the single-snapshot formula holds as well. -/
theorem available_ram_percent_two_reads_witness :
    (available_ram_percent testProvider 0).1 =
      pyDiv (((testProvider.vm 0).available : ℚ) * 100)
        (((testProvider.vm 1).total : ℚ)) ∧
    (available_ram_percent testProvider 0).1 =
      pyDiv (((testProvider.vm 0).available : ℚ) * 100)
        (((testProvider.vm 0).total : ℚ)) :=
  ⟨(available_ram_percent_two_reads testProvider 0).1,
   (available_ram_percent_two_reads testProvider 0).2.1 rfl⟩
